import Mathlib

/-!
Shallow embedding of the massa-sc-runtime execution core
(src/execution/as_execution.rs and src/as_execution/mod.rs).

The wasmer machinery (stores, instances, compiled functions) is modelled
abstractly: a store holds the metering global value and the guest linear
memory, an instance maps export names to exports, and a guest function is
an arbitrary state transformer.  The `gas_calibration` cargo feature is a
compile-time flag and is modelled as a boolean parameter `gc` (true when
the feature is enabled).
-/

namespace MassaSc

/-- Guest-memory byte sequences. -/
abbrev Bytes := List Nat

/-- GasCosts (from the crate root): per-operator cost and the fixed launch
cost charged once per call. -/
structure GasCosts where
  launch_cost : Nat
  operator_cost : Nat
  deriving DecidableEq, Repr

/-- A wasmer runtime value, as used by the invocation driver: either an
i32 (carried as its 32-bit pattern, a natural below 2 ^ 32) or a value of
any other wasm type. -/
inductive Value where
  | i32 (bits : Nat)
  | other
  deriving DecidableEq, Repr

/-- `Value::i32()` accessor: the i32 payload when the value is an I32. -/
def Value.i32? : Value → Option Nat
  | .i32 bits => some bits
  | .other => none

/-- The mutable wasmer store state visible to the driver: the value held by
the metering remaining-points global, and the guest linear memory viewed as
a partial map from a buffer offset to the byte buffer readable there. -/
structure StoreSt where
  remaining_points : Nat
  mem : Nat → Option Bytes

/-- The typed signatures `init_with_instance` looks up. -/
inductive FuncSig where
  | i32i32_to_i32
  | i32_to_i32
  | i32_to_unit
  | unit_to_unit
  | other_sig
  deriving DecidableEq, Repr

/-- A guest-exported wasm function: its parameter arity, its full typed
signature (used by `get_typed_function`), and its behaviour — a state
transformer from store state and arguments to a new store state together
with either the returned values or a trap/runtime error. -/
structure WasmFunc where
  param_arity : Nat
  sig : FuncSig
  call : StoreSt → List Value → StoreSt × Except String (List Value)

/-- One export of an instantiated guest module. -/
inductive Export where
  | memory
  | func (f : WasmFunc)
  | global

/-- An instantiated guest module: its name-indexed export table. -/
structure WInstance where
  exports : String → Option Export

/-- The per-instantiation execution environment `ASEnv` (crate env module,
only its handles matter here): optional linear-memory handle, four
independently optional lifecycle-function handles, two optional
metering-global handles, and the gas-cost table. -/
structure ASEnv where
  gas_costs : GasCosts
  memory : Option Unit
  fn_new : Option Unit
  fn_pin : Option Unit
  fn_unpin : Option Unit
  fn_collect : Option Unit
  remaining_points : Option Unit
  exhausted_points : Option Unit

/-- The designated main entry point name.
Modelled from the spec: `crate::settings::MAIN` (the settings module is not
under src/); the spec calls it "the designated main entry point". -/
def MAIN : String := "main"

/-- Modelled from the spec: `get_remaining_points` from the crate env
module (not under src/) reads the metering remaining-points global through
the handle stored in the environment, failing when the handle is absent. -/
def get_remaining_points (env : ASEnv) (st : StoreSt) : Except String Nat :=
  if env.remaining_points.isSome then .ok st.remaining_points
  else .error "Lost reference to the remaining points global"

/-- Modelled from the spec: `set_remaining_points` from the crate env
module (not under src/) writes the metering remaining-points global through
the handle stored in the environment, failing when the handle is absent. -/
def set_remaining_points (env : ASEnv) (st : StoreSt) (v : Nat) :
    Except String StoreSt :=
  if env.remaining_points.isSome then .ok { st with remaining_points := v }
  else .error "Lost reference to the remaining points global"

/-- The value returned from one invocation (crate types module):
output bytes and remaining gas. -/
structure Response where
  ret : Bytes
  remaining_gas : Nat
  deriving DecidableEq, Repr

/-- Observable steps the driver performs against the instance: writing the
metering global, calling the guest allocator (`BufferPtr::alloc` with the
caller-supplied payload), and calling a guest export with given arguments. -/
inductive Event where
  | setPoints (v : Nat)
  | allocCalled (payload : Bytes)
  | exportCalled (name : String) (args : List Value)
  deriving DecidableEq, Repr

/-- Whether an event is a metering-global write. -/
def Event.isSetPoints : Event → Bool
  | .setPoints _ => true
  | _ => false

/-- Result of one run of the invocation driver: the call result, the store
state the caller is left with, and the ordered trace of observable steps. -/
structure ExecOut where
  result : Except String Response
  store : StoreSt
  events : List Event

/-- `instance.exports.get_memory("memory")`: succeeds exactly when the
instance exports linear memory under the queried name. -/
def get_memory (exports : String → Option Export) (name : String) :
    Except String Unit :=
  match exports name with
  | some Export.memory => .ok ()
  | some _ => .error "Incompatible Export Type"
  | none => .error "Missing export memory"

/-- `instance.exports.get_typed_function::<Sig>(name).ok()`: a handle when
the export exists as a function of exactly the requested signature. -/
def get_typed_function (exports : String → Option Export) (sig : FuncSig)
    (name : String) : Option Unit :=
  match exports name with
  | some (Export.func f) => if f.sig = sig then some () else none
  | _ => none

/-- `instance.exports.get_global(name)`: succeeds exactly when the export
exists and is a global. -/
def get_global (exports : String → Option Export) (name : String) :
    Except String Unit :=
  match exports name with
  | some Export.global => .ok ()
  | some _ => .error "Incompatible Export Type"
  | none => .error "Missing export global"

/-- The pre-charge block at the top of `execution`
(src/execution/as_execution.rs lines 36-44): in production metering mode
(`gc = false`) read remaining gas, fail when the launch cost exceeds it,
otherwise deduct the launch cost; skipped entirely in calibration mode. -/
def prechargeStep (gc : Bool) (env : ASEnv) (st : StoreSt) :
    Except String (StoreSt × List Event) :=
  if gc = false then
    match get_remaining_points env st with
    | .error e => .error e
    | .ok remaining_gas =>
      if env.gas_costs.launch_cost > remaining_gas then
        .error "Not enough gas to launch the virtual machine"
      else
        match set_remaining_points env st
            (remaining_gas - env.gas_costs.launch_cost) with
        | .error e => .error e
        | .ok st1 =>
          .ok (st1, [Event.setPoints (remaining_gas - env.gas_costs.launch_cost)])
  else .ok (st, [])

/-- The non-main return-value read of `execution`
(src/execution/as_execution.rs lines 72-82): an i32 return value is read
back as a guest-memory buffer through the `memory` export, no return value
yields empty bytes, and any other return shape is an error. -/
def readRet (inst : WInstance) (st : StoreSt) (value : List Value) :
    Except String Bytes :=
  match value.head? with
  | some v =>
    match v.i32? with
    | some offset =>
      match get_memory inst.exports "memory" with
      | .ok _ =>
        match st.mem offset with
        | some bytes => .ok bytes
        | none => .error "Buffer read out of bounds"
      | .error e => .error e
    | none => .error "Execution wasn\x27t in capacity to read the return value"
  | none => .ok []

/-- The response computed by the `match res` return-extraction block of
`execution` (src/execution/as_execution.rs lines 58-94): for the main entry
point the returned bytes are always empty; otherwise `readRet` recovers the
byte payload.  Remaining gas is read from the metering global, or reported
as 0 in calibration mode. -/
def finishResult (gc : Bool) (env : ASEnv) (inst : WInstance)
    (function : String) (st : StoreSt) (res : Except String (List Value)) :
    Except String Response :=
  match res with
  | .error e => .error e
  | .ok value =>
    if function = MAIN then
      match (if gc then Except.ok 0 else get_remaining_points env st) with
      | .error e => .error e
      | .ok remaining_gas => .ok ⟨[], remaining_gas⟩
    else
      match readRet inst st value with
      | .error e => .error e
      | .ok ret =>
        match (if gc then Except.ok 0 else get_remaining_points env st) with
        | .error e => .error e
        | .ok remaining_gas => .ok ⟨ret, remaining_gas⟩

/-- The return-extraction step of `execution`: the response computed by
`finishResult`, the store state the guest call left behind, and the event
trace accumulated so far (the extraction itself performs no further
observable step against the instance). -/
def finish (gc : Bool) (env : ASEnv) (inst : WInstance) (function : String)
    (st : StoreSt) (evs : List Event) (res : Except String (List Value)) :
    ExecOut :=
  ⟨finishResult gc env inst function st res, st, evs⟩

/-- The invocation driver `execution` (src/execution/as_execution.rs lines
29-95).  `alloc` models `BufferPtr::alloc`: the external guest-side
allocation that writes the payload into guest memory and returns the
buffer offset.  The trace records metering writes, allocator calls and
export calls in order. -/
def execution (gc : Bool) (env : ASEnv)
    (alloc : StoreSt → Bytes → StoreSt × Except String Nat)
    (inst : WInstance) (st0 : StoreSt) (function : String) (param : Bytes) :
    ExecOut :=
  match prechargeStep gc env st0 with
  | .error e => ⟨.error e, st0, []⟩
  | .ok (st1, evs1) =>
    match inst.exports function with
    | some (Export.func wasm_func) =>
      if wasm_func.param_arity = 0 ∧ function = MAIN then
        let r := wasm_func.call st1 []
        finish gc env inst function r.1
          (evs1 ++ [Event.exportCalled function []]) r.2
      else if wasm_func.param_arity = 1 then
        match alloc st1 param with
        | (st2, .error e) => ⟨.error e, st2, evs1 ++ [Event.allocCalled param]⟩
        | (st2, .ok ptr) =>
          let arg := Value.i32 (ptr % 2 ^ 32)
          let r := wasm_func.call st2 [arg]
          finish gc env inst function r.1
            (evs1 ++ [Event.allocCalled param, Event.exportCalled function [arg]])
            r.2
      else
        ⟨.error "Unexpected number of parameters in the function called", st1, evs1⟩
    | _ => ⟨.error "Missing export", st1, evs1⟩

/-- `init_with_instance` (src/execution/as_execution.rs lines 97-159):
retrieves the required `memory` export, best-effort retrieves the four
lifecycle exports, stores all of them into the environment, and in
production metering mode retrieves the two metering globals (failing when
either is missing) and stores their handles.  Returns the environment the
caller is left with together with the success/failure outcome. -/
def init_with_instance (gc : Bool) (inst : WInstance) (env : ASEnv) :
    ASEnv × Except String Unit :=
  match get_memory inst.exports "memory" with
  | .error e => (env, .error e)
  | .ok _ =>
    let fn_new := get_typed_function inst.exports FuncSig.i32i32_to_i32 "__new"
    let fn_pin := get_typed_function inst.exports FuncSig.i32_to_i32 "__pin"
    let fn_unpin := get_typed_function inst.exports FuncSig.i32_to_unit "__unpin"
    let fn_collect := get_typed_function inst.exports FuncSig.unit_to_unit "__collect"
    let env1 := { env with
      memory := some (), fn_new := fn_new, fn_pin := fn_pin,
      fn_unpin := fn_unpin, fn_collect := fn_collect }
    if gc = false then
      match get_global inst.exports "wasmer_metering_remaining_points" with
      | .error e => (env1, .error e)
      | .ok _ =>
        let env2 := { env1 with remaining_points := some () }
        match get_global inst.exports "wasmer_metering_points_exhausted" with
        | .error e => (env2, .error e)
        | .ok _ => ({ env2 with exhausted_points := some () }, .ok ())
    else (env1, .ok ())

/-- The compiler kinds wasmer offers; the runtime must pick `singlepass`. -/
inductive CompilerKind where
  | singlepass
  | cranelift
  deriving DecidableEq, Repr

/-- The wasm feature-set record passed to the engine builder. -/
structure Features where
  threads : Bool
  reference_types : Bool
  simd : Bool
  bulk_memory : Bool
  multi_value : Bool
  tail_call : Bool
  module_linking : Bool
  multi_memory : Bool
  memory64 : Bool
  exceptions : Bool
  relaxed_simd : Bool
  extended_const : Bool
  deriving DecidableEq, Repr

/-- The instruction-accounting middleware installed on the engine: exactly
one of production metering (per-operator cost against the limit) or the
calibration counter. -/
inductive Middleware where
  | gasCalibrationMw
  | metering (limit : Nat) (operator_cost : Nat)
  deriving DecidableEq, Repr

/-- The configured engine produced by `init_engine`. -/
structure EngineCfg where
  compiler : CompilerKind
  canonicalize_nans : Bool
  features : Features
  middleware : Middleware
  deriving DecidableEq, Repr

/-- `init_engine` (src/as_execution/mod.rs lines 62-111): Singlepass
compiler, canonicalized NaNs, every wasm feature off except bulk memory,
and the middleware selected by the `gas_calibration` feature flag `gc`. -/
def init_engine (gc : Bool) (limit : Nat) (gas_costs : GasCosts) : EngineCfg :=
  { compiler := CompilerKind.singlepass
    canonicalize_nans := true
    features :=
      { threads := false
        reference_types := false
        simd := false
        bulk_memory := true
        multi_value := false
        tail_call := false
        module_linking := false
        multi_memory := false
        memory64 := false
        exceptions := false
        relaxed_simd := false
        extended_const := false }
    middleware :=
      if gc then Middleware.gasCalibrationMw
      else Middleware.metering limit gas_costs.operator_cost }

/-- The opaque compiled artifact `wasmer::Module` produces; compilation
itself is abstracted as a `compile` argument below. -/
structure WModule where
  code : Bytes
  deriving DecidableEq, Repr

/-- `ASModule` (src/as_execution/mod.rs lines 44-47): compiled module plus
the gas limit it was compiled with. -/
structure ASModule where
  binary_module : WModule
  init_limit : Nat
  deriving DecidableEq, Repr

/-- `ASModule::new` (src/as_execution/mod.rs lines 50-59): builds the
engine from the limit and gas costs, compiles the bytecode on it
(`compile` abstracts `wasmer::Module::new`), and pairs intermediate
module and engine. -/
def ASModule.new (gc : Bool)
    (compile : EngineCfg → Bytes → Except String WModule)
    (bytecode : Bytes) (limit : Nat) (gas_costs : GasCosts) :
    Except String (ASModule × EngineCfg) :=
  let engine := init_engine gc limit gas_costs
  match compile engine bytecode with
  | .error e => .error e
  | .ok m => .ok ({ binary_module := m, init_limit := limit }, engine)

/-- `RuntimeModule` (src/as_execution/mod.rs lines 22-25): tagged union
over guest-language families, currently the single AssemblyScript variant
pairing the compiled module with its owning engine. -/
inductive RuntimeModule where
  | ASModule (m : ASModule × EngineCfg)
  deriving DecidableEq, Repr

/-- `RuntimeModule::new` (src/as_execution/mod.rs lines 33-39): rejects
empty bytecode, and routes every non-empty bytecode — whatever its first
byte — to `ASModule::new` with the full bytecode, limit and gas costs. -/
def RuntimeModule.new (gc : Bool)
    (compile : EngineCfg → Bytes → Except String WModule)
    (bytecode : Bytes) (limit : Nat) (gas_costs : GasCosts) :
    Except String RuntimeModule :=
  match bytecode.head? with
  | some 1 => (ASModule.new gc compile bytecode limit gas_costs).map RuntimeModule.ASModule
  | some _ => (ASModule.new gc compile bytecode limit gas_costs).map RuntimeModule.ASModule
  | none => .error "Empty bytecode"

/-- Modelled from the spec: `LimitingTunables` (src/tunable_memory.rs is
not under src/) wraps a baseline page-allocation policy and clamps every
requested or grown linear-memory size to a hard page ceiling. -/
structure LimitingTunables where
  max_pages : Nat
  deriving DecidableEq, Repr

/-- Modelled from the spec: the tunables check every memory-allocation and
memory-growth request against the configured maximum page count; requests
exceeding the ceiling fail with an allocation error, requests at or below
it succeed. -/
def LimitingTunables.validate_request (t : LimitingTunables)
    (requested_pages : Nat) : Except String Unit :=
  if requested_pages ≤ t.max_pages then .ok ()
  else .error "Requested memory size exceeds the maximum number of pages"

/-- The store configuration `init_store` builds: the tunables installed on
the store. -/
structure StoreCfg where
  tunables : LimitingTunables
  deriving DecidableEq, Repr

/-- `init_store` (src/as_execution/mod.rs lines 113-118): installs
`LimitingTunables` with the configured maximum page count on the store.
The value of `max_number_of_pages` comes from the settings module (not
under src/) and is therefore kept as a parameter. -/
def init_store (max_number_of_pages : Nat) : StoreCfg :=
  { tunables := { max_pages := max_number_of_pages } }

/-! Concrete sample objects used to exercise the definitions on closed
inputs. -/

/-- A sample gas-cost table: launch cost 3, operator cost 1. -/
def sampleGasCosts : GasCosts := { launch_cost := 3, operator_cost := 1 }

/-- A fully wired sample environment (production metering mode). -/
def sampleEnv : ASEnv :=
  { gas_costs := sampleGasCosts, memory := some (), fn_new := some (),
    fn_pin := some (), fn_unpin := some (), fn_collect := some (),
    remaining_points := some (), exhausted_points := some () }

/-- A sample guest allocator: writes the payload at offset 100 and returns
that offset, leaving the rest of the store untouched. -/
def sampleAlloc : StoreSt → Bytes → StoreSt × Except String Nat :=
  fun st p =>
    ({ st with mem := fun o => if o = 100 then some p else st.mem o }, .ok 100)

/-- A sample main entry point: zero parameters, returns no value. -/
def mainFunc : WasmFunc :=
  { param_arity := 0, sig := FuncSig.unit_to_unit,
    call := fun st _ => (st, .ok []) }

/-- A sample non-main export: one parameter, returns the i32 offset 5. -/
def fooFunc : WasmFunc :=
  { param_arity := 1, sig := FuncSig.i32_to_i32,
    call := fun st _ => (st, .ok [Value.i32 5]) }

/-- A sample instance exporting `main`, `foo`, linear memory and the two
metering globals (and no lifecycle exports). -/
def sampleInst : WInstance :=
  { exports := fun n =>
      if n = "main" then some (Export.func mainFunc)
      else if n = "foo" then some (Export.func fooFunc)
      else if n = "memory" then some Export.memory
      else if n = "wasmer_metering_remaining_points" then some Export.global
      else if n = "wasmer_metering_points_exhausted" then some Export.global
      else none }

/-- A sample store with 10 gas remaining and a 2-byte buffer at offset 5. -/
def highSt : StoreSt :=
  { remaining_points := 10, mem := fun o => if o = 5 then some [9, 9] else none }

/-- A sample store with only 2 gas remaining (below the launch cost). -/
def lowSt : StoreSt :=
  { remaining_points := 2, mem := fun o => if o = 5 then some [9, 9] else none }

/-- A fresh environment before `init_with_instance`: no handles populated. -/
def freshEnv : ASEnv :=
  { gas_costs := sampleGasCosts, memory := none, fn_new := none,
    fn_pin := none, fn_unpin := none, fn_collect := none,
    remaining_points := none, exhausted_points := none }

/-- A sample compiler that accepts every bytecode. -/
def sampleCompile : EngineCfg → Bytes → Except String WModule :=
  fun _ b => .ok { code := b }

end MassaSc

namespace MassaSc

/-- Helper: in production mode with the metering handle present, the
pre-charge step fails with the insufficient-gas message exactly when the
launch cost exceeds the remaining gas. -/
theorem prechargeStep_insufficient (env : ASEnv) (st : StoreSt)
    (hm : env.remaining_points.isSome)
    (h : env.gas_costs.launch_cost > st.remaining_points) :
    prechargeStep false env st =
      .error "Not enough gas to launch the virtual machine" := by
  simp [prechargeStep, get_remaining_points, hm, h]

/-- Helper: in production mode with the metering handle present and enough
gas, the pre-charge step deducts the launch cost and records the write. -/
theorem prechargeStep_deduct (env : ASEnv) (st : StoreSt)
    (hm : env.remaining_points.isSome)
    (h : env.gas_costs.launch_cost ≤ st.remaining_points) :
    prechargeStep false env st =
      .ok ({ st with remaining_points := st.remaining_points - env.gas_costs.launch_cost },
           [Event.setPoints (st.remaining_points - env.gas_costs.launch_cost)]) := by
  have h2 : ¬ env.gas_costs.launch_cost > st.remaining_points := not_lt.mpr h
  simp [prechargeStep, get_remaining_points, set_remaining_points, hm, h2]

/-- Helper: in calibration mode the pre-charge step does nothing. -/
theorem prechargeStep_calibration (env : ASEnv) (st : StoreSt) :
    prechargeStep true env st = .ok (st, []) := rfl

/-- Helper: the remaining-gas read at call completion: 0 in calibration
mode, the metering-global store value in production mode. -/
theorem gasRead_ok (gc : Bool) (env : ASEnv) (st : StoreSt) (rg : Nat)
    (heq : (if gc then Except.ok 0 else get_remaining_points env st) =
      Except.ok rg) :
    rg = if gc then 0 else st.remaining_points := by
  rcases gc with _ | _
  · simp only [Bool.false_eq_true, if_false] at heq ⊢
    unfold get_remaining_points at heq
    split at heq
    · rw [Except.ok.injEq] at heq
      exact heq.symm
    · simp at heq
  · simp only [if_true] at heq ⊢
    rw [Except.ok.injEq] at heq
    exact heq.symm

/-- Helper: a successful response computed for the main entry point always
carries an empty byte payload. -/
theorem finishResult_main (gc : Bool) (env : ASEnv) (inst : WInstance)
    (st : StoreSt) (res : Except String (List Value)) (r : Response)
    (h : finishResult gc env inst MAIN st res = .ok r) : r.ret = [] := by
  unfold finishResult at h
  split at h
  · simp at h
  · split at h
    · split at h
      · simp at h
      · rw [Except.ok.injEq] at h
        subst h
        rfl
    · next hne => exact absurd rfl hne

/-- Helper: every successful response carries, as remaining gas, 0 in
calibration mode and the metering-global store value in production. -/
theorem finishResult_gas (gc : Bool) (env : ASEnv) (inst : WInstance)
    (f : String) (st : StoreSt) (res : Except String (List Value))
    (r : Response) (h : finishResult gc env inst f st res = .ok r) :
    r.remaining_gas = if gc then 0 else st.remaining_points := by
  unfold finishResult at h
  split at h
  · simp at h
  · split at h
    · split at h
      · simp at h
      · next rg heq =>
          rw [Except.ok.injEq] at h
          subst h
          simpa using gasRead_ok gc env st rg heq
    · split at h
      · simp at h
      · split at h
        · simp at h
        · next rg heq =>
            rw [Except.ok.injEq] at h
            subst h
            simpa using gasRead_ok gc env st rg heq

end MassaSc

namespace MassaSc

set_option maxHeartbeats 1000000

/-- Helper: in calibration mode the return-extraction result does not
depend on the environment (no metering global is consulted). -/
theorem finishResult_true_env (env env2 : ASEnv) (inst : WInstance)
    (f : String) (st : StoreSt) (res : Except String (List Value)) :
    finishResult true env inst f st res = finishResult true env2 inst f st res := by
  cases res <;> rfl

/-- C1: in production metering mode, when the launch cost exceeds the
remaining gas the call fails with the insufficient-gas error before any
guest step executes and no response is produced; otherwise the launch cost
is deducted from the metering global before the target export is called.
In calibration mode the pre-charge step is skipped entirely: the result
does not depend on the launch cost and no metering write ever occurs. -/
theorem execution_precharge_spec (env : ASEnv) (g : GasCosts)
    (alloc : StoreSt → Bytes → StoreSt × Except String Nat)
    (inst : WInstance) (st : StoreSt) (f : String) (p : Bytes)
    (hm : env.remaining_points.isSome) :
    (env.gas_costs.launch_cost > st.remaining_points →
      (execution false env alloc inst st f p).result =
        .error "Not enough gas to launch the virtual machine" ∧
      (execution false env alloc inst st f p).events = []) ∧
    (env.gas_costs.launch_cost ≤ st.remaining_points →
      (execution false env alloc inst st f p).events.head? =
        some (Event.setPoints (st.remaining_points - env.gas_costs.launch_cost))) ∧
    execution true { env with gas_costs := g } alloc inst st f p =
      execution true env alloc inst st f p ∧
    ((execution true env alloc inst st f p).events.all fun e => !e.isSetPoints) = true := by
  refine ⟨fun h => ?_, fun h => ?_, ?_, ?_⟩
  · unfold execution
    rw [prechargeStep_insufficient env st hm h]
    exact ⟨rfl, rfl⟩
  · unfold execution
    rw [prechargeStep_deduct env st hm h]
    split
    · next e heq => exact absurd heq (by simp)
    · next st1 evs1 heq =>
        rw [Except.ok.injEq, Prod.mk.injEq] at heq
        obtain ⟨h1, h2⟩ := heq
        subst h1
        subst h2
        split
        · split
          · rfl
          · split
            · split
              · rfl
              · rfl
            · rfl
        · rfl
  · rfl
  · unfold execution
    rw [prechargeStep_calibration]
    split
    · next e heq => exact absurd heq (by simp)
    · next st1 evs1 heq =>
        rw [Except.ok.injEq, Prod.mk.injEq] at heq
        obtain ⟨h1, h2⟩ := heq
        subst h1
        subst h2
        split
        · split
          · rfl
          · split
            · split
              · rfl
              · rfl
            · rfl
        · rfl

/-- C10: when the pre-charge check fails, the call returns the
insufficient-gas error with the store (metering global and guest memory)
exactly as it was and an empty event trace: neither the metering write,
nor the guest allocator, nor the target export is invoked. -/
theorem execution_precharge_failure_no_effects (env : ASEnv)
    (alloc : StoreSt → Bytes → StoreSt × Except String Nat)
    (inst : WInstance) (st : StoreSt) (f : String) (p : Bytes)
    (hm : env.remaining_points.isSome)
    (h : env.gas_costs.launch_cost > st.remaining_points) :
    execution false env alloc inst st f p =
      ⟨.error "Not enough gas to launch the virtual machine", st, []⟩ := by
  unfold execution
  rw [prechargeStep_insufficient env st hm h]

/-- C2: every successful invocation of the designated main entry point
produces a response whose byte payload is empty, regardless of what the
guest main function returned. -/
theorem execution_main_returns_empty (gc : Bool) (env : ASEnv)
    (alloc : StoreSt → Bytes → StoreSt × Except String Nat)
    (inst : WInstance) (st : StoreSt) (p : Bytes) (r : Response)
    (h : (execution gc env alloc inst st MAIN p).result = .ok r) :
    r.ret = [] := by
  revert h
  unfold execution
  split
  · intro h
    exact absurd h (by simp)
  · split
    · split
      · intro h
        exact finishResult_main _ _ _ _ _ _ h
      · split
        · split
          · intro h
            exact absurd h (by simp)
          · intro h
            exact finishResult_main _ _ _ _ _ _ h
        · intro h
          exact absurd h (by simp)
    · intro h
      exact absurd h (by simp)

/-- C5: every successful invocation reports, as remaining gas, the value
of the metering remaining-points global at call completion in production
mode, and always 0 in calibration mode. -/
theorem execution_remaining_gas_spec (gc : Bool) (env : ASEnv)
    (alloc : StoreSt → Bytes → StoreSt × Except String Nat)
    (inst : WInstance) (st : StoreSt) (f : String) (p : Bytes) (r : Response)
    (h : (execution gc env alloc inst st f p).result = .ok r) :
    r.remaining_gas =
      if gc then 0 else (execution gc env alloc inst st f p).store.remaining_points := by
  revert h
  unfold execution
  split
  · intro h
    exact absurd h (by simp)
  · split
    · split
      · intro h
        simpa [finish] using finishResult_gas _ _ _ _ _ _ _ h
      · split
        · split
          · intro h
            exact absurd h (by simp)
          · intro h
            simpa [finish] using finishResult_gas _ _ _ _ _ _ _ h
        · intro h
          exact absurd h (by simp)
    · intro h
      exact absurd h (by simp)

/-- C3: return extraction for a successful non-main invocation: an i32
return value is read back as the guest-memory buffer at that offset at
call completion, no return value yields an empty payload, and any other
return shape fails with the cannot-read-return-value error. -/
theorem execution_return_extraction_spec (gc : Bool) (env : ASEnv)
    (inst : WInstance) (f : String) (st : StoreSt) (evs : List Event)
    (value : List Value) (v : Value) (off : Nat) (bytes : Bytes)
    (hf : f ≠ MAIN) (hm : gc = false → env.remaining_points.isSome) :
    (value.head? = some v → v.i32? = some off →
      inst.exports "memory" = some Export.memory → st.mem off = some bytes →
      (finish gc env inst f st evs (.ok value)).result =
        .ok ⟨bytes, if gc then 0 else st.remaining_points⟩) ∧
    (value = [] →
      (finish gc env inst f st evs (.ok value)).result =
        .ok ⟨[], if gc then 0 else st.remaining_points⟩) ∧
    (value.head? = some v → v.i32? = none →
      (finish gc env inst f st evs (.ok value)).result =
        .error "Execution wasn\x27t in capacity to read the return value") := by
  have hgas : (if gc then Except.ok 0 else get_remaining_points env st) =
      Except.ok (if gc then 0 else st.remaining_points) := by
    rcases gc with _ | _
    · simp [get_remaining_points, hm rfl]
    · simp
  refine ⟨fun h1 h2 h3 h4 => ?_, fun hempty => ?_, fun h1 h2 => ?_⟩
  · show finishResult gc env inst f st (.ok value) = _
    simp [finishResult, readRet, hf, h1, h2, h3, h4, get_memory, hgas]
  · subst hempty
    show finishResult gc env inst f st (.ok []) = _
    simp [finishResult, readRet, hf, hgas]
  · show finishResult gc env inst f st (.ok value) = _
    simp [finishResult, readRet, hf, h1, h2]

/-- C4: argument marshaling: a target export whose parameter arity is
neither zero nor one fails with the unexpected-parameter-count error; a
zero-parameter target that is not the designated main entry point also
fails with that error; a one-parameter invocation calls the guest
allocator with the caller-supplied payload and passes the returned buffer
offset as the single i32 argument to the export. -/
theorem execution_argument_marshaling_spec (gc : Bool) (env : ASEnv)
    (alloc : StoreSt → Bytes → StoreSt × Except String Nat)
    (inst : WInstance) (st : StoreSt) (f : String) (p : Bytes)
    (wf : WasmFunc) (ptr : Nat)
    (hm : gc = false → env.remaining_points.isSome)
    (hgas : env.gas_costs.launch_cost ≤ st.remaining_points)
    (hf : inst.exports f = some (Export.func wf))
    (halloc : ∀ s, (alloc s p).2 = Except.ok ptr) :
    (2 ≤ wf.param_arity →
      (execution gc env alloc inst st f p).result =
        .error "Unexpected number of parameters in the function called") ∧
    (wf.param_arity = 0 → f ≠ MAIN →
      (execution gc env alloc inst st f p).result =
        .error "Unexpected number of parameters in the function called") ∧
    (wf.param_arity = 1 →
      (execution gc env alloc inst st f p).events =
        (if gc then [] else
          [Event.setPoints (st.remaining_points - env.gas_costs.launch_cost)]) ++
        [Event.allocCalled p, Event.exportCalled f [Value.i32 (ptr % 2 ^ 32)]]) := by
  have hpre : prechargeStep gc env st =
      .ok ((if gc then st else
        { st with remaining_points := st.remaining_points - env.gas_costs.launch_cost }),
        (if gc then [] else
          [Event.setPoints (st.remaining_points - env.gas_costs.launch_cost)])) := by
    rcases gc with _ | _
    · simpa using prechargeStep_deduct env st (hm rfl) hgas
    · rfl
  refine ⟨fun h2a => ?_, fun h0 hfm => ?_, fun h1 => ?_⟩
  · have c1 : ¬(wf.param_arity = 0 ∧ f = MAIN) := by
      rintro ⟨h0, _⟩
      omega
    have c2 : wf.param_arity ≠ 1 := by omega
    simp [execution, hpre, hf, c1, c2]
  · have c1 : ¬(wf.param_arity = 0 ∧ f = MAIN) := by
      rintro ⟨_, hM⟩
      exact hfm hM
    have c2 : wf.param_arity ≠ 1 := by omega
    simp [execution, hpre, hf, c1, c2]
  · have c1 : ¬(wf.param_arity = 0 ∧ f = MAIN) := by
      rintro ⟨h0, _⟩
      omega
    rcases h2 : alloc (if gc then st else
        { st with remaining_points := st.remaining_points - env.gas_costs.launch_cost }) p
      with ⟨st2, r2⟩
    have h3 := halloc (if gc then st else
        { st with remaining_points := st.remaining_points - env.gas_costs.launch_cost })
    rw [h2] at h3
    simp only at h3
    subst h3
    simp [execution, hpre, hf, c1, h1, h2, finish]

/-- Helper: `RuntimeModule::new` routes every non-empty bytecode,
whatever its first byte, to the AssemblyScript family compiler. -/
theorem runtime_module_new_cons (gc : Bool)
    (compile : EngineCfg → Bytes → Except String WModule)
    (b : Nat) (bs : Bytes) (limit : Nat) (gas_costs : GasCosts) :
    RuntimeModule.new gc compile (b :: bs) limit gas_costs =
      (ASModule.new gc compile (b :: bs) limit gas_costs).map RuntimeModule.ASModule := by
  rcases b with _ | _ | m <;> rfl

/-- C6: `RuntimeModule::new` fails with the empty-bytecode error if and
only if the bytecode is empty (provided the compiler never itself emits
that exact message); every non-empty bytecode, regardless of its first
byte, is delegated to `ASModule::new` with the full bytecode, limit and
gas costs. -/
theorem runtime_module_new_spec (gc : Bool)
    (compile : EngineCfg → Bytes → Except String WModule)
    (bytecode : Bytes) (limit : Nat) (gas_costs : GasCosts)
    (hc : ∀ e b, compile e b ≠ Except.error "Empty bytecode") :
    RuntimeModule.new gc compile [] limit gas_costs = .error "Empty bytecode" ∧
    (bytecode ≠ [] →
      RuntimeModule.new gc compile bytecode limit gas_costs =
        (ASModule.new gc compile bytecode limit gas_costs).map RuntimeModule.ASModule) ∧
    (RuntimeModule.new gc compile bytecode limit gas_costs = .error "Empty bytecode" →
      bytecode = []) := by
  refine ⟨rfl, fun hne => ?_, fun herr => ?_⟩
  · rcases bytecode with _ | ⟨b, bs⟩
    · exact absurd rfl hne
    · exact runtime_module_new_cons gc compile b bs limit gas_costs
  · rcases bytecode with _ | ⟨b, bs⟩
    · rfl
    · exfalso
      rw [runtime_module_new_cons gc compile b bs limit gas_costs] at herr
      rcases hcomp : compile (init_engine gc limit gas_costs) (b :: bs) with e | m
      · simp only [ASModule.new, hcomp, Except.map] at herr
        rw [Except.error.injEq] at herr
        subst herr
        exact hc _ _ hcomp
      · simp only [ASModule.new, hcomp, Except.map] at herr
        exact Except.noConfusion herr

/-- C8: for every gas limit and cost table, `init_engine` selects the
single-pass compiler, canonicalizes NaN bit patterns, and enables exactly
bulk memory while disabling threads, reference types, SIMD, multi-value,
tail calls, module linking, multi-memory, memory64, exceptions,
relaxed-SIMD and extended-const. -/
theorem init_engine_features_spec (gc : Bool) (limit : Nat) (gas_costs : GasCosts) :
    (init_engine gc limit gas_costs).compiler = CompilerKind.singlepass ∧
    (init_engine gc limit gas_costs).canonicalize_nans = true ∧
    (init_engine gc limit gas_costs).features =
      { threads := false, reference_types := false, simd := false,
        bulk_memory := true, multi_value := false, tail_call := false,
        module_linking := false, multi_memory := false, memory64 := false,
        exceptions := false, relaxed_simd := false, extended_const := false } :=
  ⟨rfl, rfl, rfl⟩

/-- C9: every memory-allocation or growth request is checked against the
configured maximum page count installed by `init_store`: requests at or
below the ceiling succeed, requests above it fail with the allocation
error. -/
theorem init_store_page_limit_spec (max_number_of_pages r : Nat) :
    ((init_store max_number_of_pages).tunables.validate_request r = .ok () ↔
      r ≤ max_number_of_pages) ∧
    ((init_store max_number_of_pages).tunables.validate_request r =
        .error "Requested memory size exceeds the maximum number of pages" ↔
      max_number_of_pages < r) := by
  unfold LimitingTunables.validate_request
  rw [show (init_store max_number_of_pages).tunables.max_pages = max_number_of_pages from rfl]
  split_ifs with hle
  · exact ⟨⟨fun _ => hle, fun _ => rfl⟩,
      ⟨fun h => absurd h (by simp), fun h => absurd hle (by omega)⟩⟩
  · exact ⟨⟨fun h => absurd h (by simp), fun h => absurd h hle⟩,
      ⟨fun _ => by omega, fun _ => rfl⟩⟩

/-- Helper: `get_memory` succeeds only on an actual memory export. -/
theorem get_memory_ok (ex : String → Option Export) (name : String) (u : Unit)
    (h : get_memory ex name = .ok u) : ex name = some Export.memory := by
  unfold get_memory at h
  split at h
  · next heq => exact heq
  · exact Except.noConfusion h
  · exact Except.noConfusion h

/-- Helper: `get_global` succeeds only on an actual global export. -/
theorem get_global_ok (ex : String → Option Export) (name : String) (u : Unit)
    (h : get_global ex name = .ok u) : ex name = some Export.global := by
  unfold get_global at h
  split at h
  · next heq => exact heq
  · exact Except.noConfusion h
  · exact Except.noConfusion h

/-- C7: `init_with_instance` fails when the instance does not export
linear memory under the fixed name; the four lifecycle exports are each
independently optional (their absence never blocks success); in production
metering mode it fails unless both metering globals are present; and after
a successful initialisation from a fresh environment the two
metering-global handles are populated together (both in production mode)
or not at all (calibration mode). -/
theorem init_with_instance_spec (gc : Bool) (inst : WInstance) (env : ASEnv)
    (hfresh : env.remaining_points = none ∧ env.exhausted_points = none) :
    (inst.exports "memory" ≠ some Export.memory →
      (init_with_instance gc inst env).2 ≠ .ok ()) ∧
    (inst.exports "memory" = some Export.memory →
      (gc = false →
        inst.exports "wasmer_metering_remaining_points" = some Export.global ∧
        inst.exports "wasmer_metering_points_exhausted" = some Export.global) →
      (init_with_instance gc inst env).2 = .ok ()) ∧
    (gc = false →
      (inst.exports "wasmer_metering_remaining_points" ≠ some Export.global ∨
       inst.exports "wasmer_metering_points_exhausted" ≠ some Export.global) →
      (init_with_instance gc inst env).2 ≠ .ok ()) ∧
    ((init_with_instance gc inst env).2 = .ok () →
      ((init_with_instance gc inst env).1.remaining_points.isSome =
        (init_with_instance gc inst env).1.exhausted_points.isSome) ∧
      (gc = false →
        (init_with_instance gc inst env).1.remaining_points = some () ∧
        (init_with_instance gc inst env).1.exhausted_points = some ()) ∧
      (gc = true →
        (init_with_instance gc inst env).1.remaining_points = none ∧
        (init_with_instance gc inst env).1.exhausted_points = none)) := by
  obtain ⟨hf1, hf2⟩ := hfresh
  refine ⟨fun hmem => ?_, fun hmem hgl => ?_, fun hgc hbad => ?_, fun hok => ?_⟩
  · rcases hx : get_memory inst.exports "memory" with e | u
    · simp [init_with_instance, hx]
    · exact absurd (get_memory_ok _ _ _ hx) hmem
  · rcases gc with _ | _
    · obtain ⟨hg1, hg2⟩ := hgl rfl
      simp [init_with_instance, get_memory, get_global, hmem, hg1, hg2]
    · simp [init_with_instance, get_memory, hmem]
  · subst hgc
    rcases hx : get_memory inst.exports "memory" with e | u
    · simp [init_with_instance, hx]
    · have hmem := get_memory_ok _ _ _ hx
      rcases hbad with hb1 | hb2
      · rcases hy : get_global inst.exports "wasmer_metering_remaining_points" with e | u2
        · simp [init_with_instance, hx, hy]
        · exact absurd (get_global_ok _ _ _ hy) hb1
      · rcases hy : get_global inst.exports "wasmer_metering_remaining_points" with e | u2
        · simp [init_with_instance, hx, hy]
        · rcases hz : get_global inst.exports "wasmer_metering_points_exhausted" with e | u3
          · simp [init_with_instance, hx, hy, hz]
          · exact absurd (get_global_ok _ _ _ hz) hb2
  · rcases hx : get_memory inst.exports "memory" with e | u
    · exfalso
      simp [init_with_instance, hx] at hok
    · rcases gc with _ | _
      · rcases hy : get_global inst.exports "wasmer_metering_remaining_points" with e | u2
        · exfalso
          simp [init_with_instance, hx, hy] at hok
        · rcases hz : get_global inst.exports "wasmer_metering_points_exhausted" with e | u3
          · exfalso
            simp [init_with_instance, hx, hy, hz] at hok
          · refine ⟨?_, fun _ => ⟨?_, ?_⟩, fun htr => ?_⟩
            · simp [init_with_instance, hx, hy, hz]
            · simp [init_with_instance, hx, hy, hz]
            · simp [init_with_instance, hx, hy, hz]
            · exact absurd htr (by simp)
      · refine ⟨?_, fun hff => ?_, fun _ => ⟨?_, ?_⟩⟩
        · simp [init_with_instance, hx, hf1, hf2]
        · exact absurd hff (by simp)
        · simp [init_with_instance, hx, hf1]
        · simp [init_with_instance, hx, hf2]

/-- C1 witness -/
theorem execution_precharge_spec_witness :
    sampleEnv.remaining_points.isSome ∧
    ((sampleEnv.gas_costs.launch_cost > lowSt.remaining_points →
      (execution false sampleEnv sampleAlloc sampleInst lowSt MAIN []).result =
        .error "Not enough gas to launch the virtual machine" ∧
      (execution false sampleEnv sampleAlloc sampleInst lowSt MAIN []).events = []) ∧
    (sampleEnv.gas_costs.launch_cost ≤ lowSt.remaining_points →
      (execution false sampleEnv sampleAlloc sampleInst lowSt MAIN []).events.head? =
        some (Event.setPoints (lowSt.remaining_points - sampleEnv.gas_costs.launch_cost))) ∧
    execution true { sampleEnv with gas_costs := ⟨5, 2⟩ } sampleAlloc sampleInst lowSt MAIN [] =
      execution true sampleEnv sampleAlloc sampleInst lowSt MAIN [] ∧
    ((execution true sampleEnv sampleAlloc sampleInst lowSt MAIN []).events.all
      fun e => !e.isSetPoints) = true) :=
  ⟨rfl, execution_precharge_spec sampleEnv ⟨5, 2⟩ sampleAlloc sampleInst lowSt MAIN [] rfl⟩

/-- C10 witness -/
theorem execution_precharge_failure_no_effects_witness :
    sampleEnv.gas_costs.launch_cost > lowSt.remaining_points ∧
    execution false sampleEnv sampleAlloc sampleInst lowSt MAIN [] =
      ⟨.error "Not enough gas to launch the virtual machine", lowSt, []⟩ :=
  ⟨by decide, execution_precharge_failure_no_effects sampleEnv sampleAlloc sampleInst lowSt
      MAIN [] rfl (by decide)⟩

/-- C2 witness -/
theorem execution_main_returns_empty_witness :
    (execution false sampleEnv sampleAlloc sampleInst highSt MAIN []).result =
      .ok { ret := [], remaining_gas := 7 } ∧
    ({ ret := [], remaining_gas := 7 } : Response).ret = [] :=
  ⟨rfl, execution_main_returns_empty false sampleEnv sampleAlloc sampleInst highSt []
      { ret := [], remaining_gas := 7 } rfl⟩

/-- C5 witness -/
theorem execution_remaining_gas_spec_witness :
    (execution false sampleEnv sampleAlloc sampleInst highSt "foo" [1, 2]).result =
      .ok { ret := [9, 9], remaining_gas := 7 } ∧
    ({ ret := [9, 9], remaining_gas := 7 } : Response).remaining_gas =
      if false then 0
      else (execution false sampleEnv sampleAlloc sampleInst highSt "foo" [1, 2]).store.remaining_points :=
  ⟨rfl, execution_remaining_gas_spec false sampleEnv sampleAlloc sampleInst highSt "foo" [1, 2]
      { ret := [9, 9], remaining_gas := 7 } rfl⟩

/-- C3 witness -/
theorem execution_return_extraction_spec_witness :
    ("foo" ≠ MAIN) ∧
    ((([Value.i32 5].head? = some (Value.i32 5) → (Value.i32 5).i32? = some 5 →
      sampleInst.exports "memory" = some Export.memory → highSt.mem 5 = some [9, 9] →
      (finish false sampleEnv sampleInst "foo" highSt [] (.ok [Value.i32 5])).result =
        .ok ⟨[9, 9], if false then 0 else highSt.remaining_points⟩) ∧
    ([Value.i32 5] = ([] : List Value) →
      (finish false sampleEnv sampleInst "foo" highSt [] (.ok [Value.i32 5])).result =
        .ok ⟨[], if false then 0 else highSt.remaining_points⟩) ∧
    ([Value.i32 5].head? = some (Value.i32 5) → (Value.i32 5).i32? = none →
      (finish false sampleEnv sampleInst "foo" highSt [] (.ok [Value.i32 5])).result =
        .error "Execution wasn\x27t in capacity to read the return value"))) :=
  ⟨by decide, execution_return_extraction_spec false sampleEnv sampleInst "foo" highSt []
      [Value.i32 5] (Value.i32 5) 5 [9, 9] (by decide) (fun _ => rfl)⟩

/-- C4 witness -/
theorem execution_argument_marshaling_spec_witness :
    sampleEnv.gas_costs.launch_cost ≤ highSt.remaining_points ∧
    ((2 ≤ fooFunc.param_arity →
      (execution false sampleEnv sampleAlloc sampleInst highSt "foo" [1, 2]).result =
        .error "Unexpected number of parameters in the function called") ∧
    (fooFunc.param_arity = 0 → "foo" ≠ MAIN →
      (execution false sampleEnv sampleAlloc sampleInst highSt "foo" [1, 2]).result =
        .error "Unexpected number of parameters in the function called") ∧
    (fooFunc.param_arity = 1 →
      (execution false sampleEnv sampleAlloc sampleInst highSt "foo" [1, 2]).events =
        (if false then [] else
          [Event.setPoints (highSt.remaining_points - sampleEnv.gas_costs.launch_cost)]) ++
        [Event.allocCalled [1, 2], Event.exportCalled "foo" [Value.i32 (100 % 2 ^ 32)]])) :=
  ⟨by decide, execution_argument_marshaling_spec false sampleEnv sampleAlloc sampleInst highSt
      "foo" [1, 2] fooFunc 100 (fun _ => rfl) (by decide) rfl (fun s => rfl)⟩

/-- C6 witness -/
theorem runtime_module_new_spec_witness :
    RuntimeModule.new false sampleCompile [] 7 sampleGasCosts = .error "Empty bytecode" ∧
    (([0] : Bytes) ≠ [] →
      RuntimeModule.new false sampleCompile [0] 7 sampleGasCosts =
        (ASModule.new false sampleCompile [0] 7 sampleGasCosts).map RuntimeModule.ASModule) ∧
    (RuntimeModule.new false sampleCompile [0] 7 sampleGasCosts = .error "Empty bytecode" →
      ([0] : Bytes) = []) :=
  runtime_module_new_spec false sampleCompile [0] 7 sampleGasCosts
    (fun _ _ h => Except.noConfusion h)

/-- C7 witness -/
theorem init_with_instance_spec_witness :
    (freshEnv.remaining_points = none ∧ freshEnv.exhausted_points = none) ∧
    ((sampleInst.exports "memory" ≠ some Export.memory →
      (init_with_instance false sampleInst freshEnv).2 ≠ .ok ()) ∧
    (sampleInst.exports "memory" = some Export.memory →
      (false = false →
        sampleInst.exports "wasmer_metering_remaining_points" = some Export.global ∧
        sampleInst.exports "wasmer_metering_points_exhausted" = some Export.global) →
      (init_with_instance false sampleInst freshEnv).2 = .ok ()) ∧
    (false = false →
      (sampleInst.exports "wasmer_metering_remaining_points" ≠ some Export.global ∨
       sampleInst.exports "wasmer_metering_points_exhausted" ≠ some Export.global) →
      (init_with_instance false sampleInst freshEnv).2 ≠ .ok ()) ∧
    ((init_with_instance false sampleInst freshEnv).2 = .ok () →
      ((init_with_instance false sampleInst freshEnv).1.remaining_points.isSome =
        (init_with_instance false sampleInst freshEnv).1.exhausted_points.isSome) ∧
      (false = false →
        (init_with_instance false sampleInst freshEnv).1.remaining_points = some () ∧
        (init_with_instance false sampleInst freshEnv).1.exhausted_points = some ()) ∧
      (false = true →
        (init_with_instance false sampleInst freshEnv).1.remaining_points = none ∧
        (init_with_instance false sampleInst freshEnv).1.exhausted_points = none))) :=
  ⟨⟨rfl, rfl⟩, init_with_instance_spec false sampleInst freshEnv ⟨rfl, rfl⟩⟩

end MassaSc
